import Mathlib

/-!
Verification of the backend of the IoT CO-monitoring dashboard
(src/backend/app.py): a Flask app exposing an Athena query proxy
(`run_query`), six read endpoints, a synthetic trend endpoint, and two
endpoints mutating an in-memory acknowledged-alert set.

The embedding is shallow: the Athena client (boto3) is modelled as an
oracle (`Backend`) giving, for one invocation of `run_query`, the outcome
of `start_query_execution`, of each successive `get_query_execution`
poll, and of `get_query_results`.  Exceptions raised by the client are
modelled as `Except.error msg` where `msg` is the Python `str(e)` of the
exception.  Python floats are modelled as rationals (`ℚ`): none of the
verified properties depends on IEEE rounding.
-/

/-- A Python/JSON value as it appears in the dictionaries the app builds:
a float (modelled as `ℚ`), a string, an int (`int(time.time())` in the
simulated row, timestamps in `/co_trend`), a bool (the `success` flags),
or Python `None` (which `run_query` stores when a cell has no
`VarCharValue` and the column is identifier-like). -/
inductive PyVal where
  | num : ℚ → PyVal
  | str : String → PyVal
  | int : ℤ → PyVal
  | bool : Bool → PyVal
  | pynull : PyVal
deriving DecidableEq

/-- An ASCII whitespace character, as stripped by Python `float` from
the ends of its string argument. -/
def isPySpace (c : Char) : Bool :=
  c = ' ' ∨ c = '\t' ∨ c = '\n' ∨ c = '\r' ∨ c = '\x0b' ∨ c = '\x0c'

/-- Strip whitespace from both ends of a character list. -/
def trimChars (cs : List Char) : List Char :=
  ((cs.dropWhile isPySpace).reverse.dropWhile isPySpace).reverse

/-- Numeric value of a list of decimal digit characters (most significant
first). -/
def digitsToNat (l : List Char) : Nat :=
  l.foldl (fun a c => a * 10 + (c.toNat - 48)) 0

/-- Exponent suffix of a Python float literal: nothing, or `e`/`E`, an
optional sign, and a nonempty run of digits ending the string. -/
def parseExpPart (cs : List Char) (m : ℚ) : Option ℚ :=
  match cs with
  | [] => Option.some m
  | c :: rest =>
    if c = 'e' ∨ c = 'E' then
      let (sgn, ds0) : ℤ × List Char :=
        match rest with
        | '+' :: r2 => (1, r2)
        | '-' :: r2 => (-1, r2)
        | r2 => (1, r2)
      let (ds, rest2) := ds0.span Char.isDigit
      if ds.isEmpty ∨ ¬ rest2.isEmpty then Option.none
      else Option.some (m * (10 : ℚ) ^ (sgn * (digitsToNat ds : ℤ)))
    else Option.none

/-- Unsigned part of a Python float literal: digits, an optional point
with further digits (at least one digit overall), then an optional
exponent. -/
def parseUnsigned (cs : List Char) : Option ℚ :=
  let (ip, rest) := cs.span Char.isDigit
  match rest with
  | '.' :: rest2 =>
    let (fp, rest3) := rest2.span Char.isDigit
    if ip.isEmpty ∧ fp.isEmpty then Option.none
    else
      parseExpPart rest3
        ((digitsToNat ip : ℚ) + (digitsToNat fp : ℚ) / (10 : ℚ) ^ fp.length)
  | _ =>
    if ip.isEmpty then Option.none
    else parseExpPart rest ((digitsToNat ip : ℚ) : ℚ)

/-- Model of Python `float(s)` on strings: surrounding whitespace is
stripped, an optional sign precedes a decimal literal with optional
fraction and exponent.  `Option.none` models `float` raising
`ValueError`.  (The special values `inf`/`nan` and underscore digit
separators, which Athena never emits for this schema, are outside the
model.) -/
def pyFloat (s : String) : Option ℚ :=
  match trimChars s.data with
  | '+' :: rest => parseUnsigned rest
  | '-' :: rest => (parseUnsigned rest).map (fun q => -q)
  | cs => parseUnsigned cs

/-- The identifier-like column names of app.py line 71. -/
def identCols : List String := ["device", "device_id", "alert_key"]

/-- Coercion of one result cell (app.py lines 62-76).  `value` is
`cell.get("VarCharValue", None)`: `Option.none` models an absent cell.
`float(value)` is attempted first; `float(None)` raises `TypeError` and a
non-numeric string raises `ValueError`, both caught: an identifier-like
column keeps `value` as is (the string, or `None` for an absent cell),
any other column becomes `0.0`. -/
def coerceCell (header : String) (value : Option String) : PyVal :=
  match value with
  | Option.some s =>
    match pyFloat s with
    | Option.some q => PyVal.num q
    | Option.none =>
      if header ∈ identCols then PyVal.str s else PyVal.num 0
  | Option.none =>
    if header ∈ identCols then PyVal.pynull else PyVal.num 0

/-- Python dict assignment `item[header] = v`: replace in place if the
key is present (insertion order preserved), otherwise append. -/
def dictInsert (d : List (String × PyVal)) (k : String) (v : PyVal) :
    List (String × PyVal) :=
  if d.any (fun p => p.1 = k) then
    d.map (fun p => if p.1 = k then (k, v) else p)
  else d ++ [(k, v)]

/-- Header extraction (app.py line 57):
`[h["VarCharValue"] for h in rows[0]["Data"]]`.  A header cell with no
`VarCharValue` raises `KeyError("VarCharValue")`, whose `str` is the
quoted key; the comprehension stops at the first such cell. -/
def extractHeaders : List (Option String) → Except String (List String)
  | [] => Except.ok []
  | Option.some h :: rest => (extractHeaders rest).map (fun hs => h :: hs)
  | Option.none :: _ => Except.error "\x27VarCharValue\x27"

/-- Inner loop of app.py lines 61-76: `for i, cell in enumerate(row["Data"])`
building `item`.  `headers[i]` raises `IndexError` (message
`list index out of range`) when the row has more cells than the header
row. -/
def buildItem (headers : List String) :
    List (Option String) → Nat → List (String × PyVal) →
    Except String (List (String × PyVal))
  | [], _, item => Except.ok item
  | cell :: rest, i, item =>
    match headers.get? i with
    | Option.none => Except.error "list index out of range"
    | Option.some header =>
      buildItem headers rest (i + 1) (dictInsert item header (coerceCell header cell))

/-- Outer loop of app.py lines 59-78 over the data rows; an exception in
any row aborts the whole fetch. -/
def buildItems (headers : List String) :
    List (List (Option String)) → Except String (List (List (String × PyVal)))
  | [] => Except.ok []
  | r :: rs =>
    match buildItem headers r 0 [] with
    | Except.error e => Except.error e
    | Except.ok item =>
      match buildItems headers rs with
      | Except.error e => Except.error e
      | Except.ok items => Except.ok (item :: items)

/-- Result of `run_query`: a list of row dictionaries (the Python list
return values, including `[]`), or the `{"error": msg}` dictionary. -/
inductive RunResult where
  | rows : List (List (String × PyVal)) → RunResult
  | error : String → RunResult
deriving DecidableEq

/-- Result-set parsing (app.py lines 50-81), applied to
`results["ResultSet"]["Rows"]` where each row is its `Data` list of
optional `VarCharValue`s: at most one row returns `[]`, otherwise the
first row names the columns and every later row is coerced. -/
def parseResults (rows : List (List (Option String))) : RunResult :=
  if rows.length ≤ 1 then RunResult.rows []
  else
    match rows with
    | [] => RunResult.rows []
    | hr :: rest =>
      match extractHeaders hr with
      | Except.error e => RunResult.error e
      | Except.ok headers =>
        match buildItems headers rest with
        | Except.error e => RunResult.error e
        | Except.ok items => RunResult.rows items

/-- The `Status` object of a `get_query_execution` response: the `State`
string and the optional `StateChangeReason` read by
`status_response["QueryExecution"]["Status"].get("StateChangeReason", "Unknown")`. -/
structure StatusInfo where
  state : String
  reason : Option String
deriving DecidableEq

/-- Oracle for the Athena client during one `run_query` invocation:
the outcome of `start_query_execution` on the query string, of the k-th
`get_query_execution` poll (k = 0, 1, ...) on the execution id, and of
`get_query_results` on the execution id.  `Except.error msg` models the
call raising an exception with `str(e) = msg`. -/
structure Backend where
  start : String → Except String String
  getStatus : String → Nat → Except String StatusInfo
  getResults : String → Except String (List (List (Option String)))

/-- Outcome of the polling `while` loop (app.py lines 30-43); `waited`
is the value of the Python `waited` counter at that point, which equals
the number of `time.sleep(1)` calls performed so far. -/
inductive PollOutcome where
  | broke (waited : Nat)
  | failedNow (state reason : String) (waited : Nat)
  | timedOut (waited : Nat)
  | exn (msg : String) (waited : Nat)
deriving DecidableEq

/-- A status state that keeps the loop polling: anything other than
SUCCEEDED, FAILED and CANCELLED (i.e. QUEUED or RUNNING). -/
def isPending (s : String) : Bool :=
  s ≠ "SUCCEEDED" ∧ s ≠ "FAILED" ∧ s ≠ "CANCELLED"

/-- The polling loop of app.py lines 30-43, by recursion on the
remaining budget `fuel = max_wait_seconds - waited`: poll; SUCCEEDED
breaks, FAILED/CANCELLED returns the error dictionary, anything else
sleeps one second and retries. -/
def pollLoop (b : Backend) (qid : String) : Nat → Nat → PollOutcome
  | 0, waited => PollOutcome.timedOut waited
  | fuel + 1, waited =>
    match b.getStatus qid waited with
    | Except.error e => PollOutcome.exn e waited
    | Except.ok st =>
      if st.state = "SUCCEEDED" then PollOutcome.broke waited
      else if st.state = "FAILED" ∨ st.state = "CANCELLED" then
        PollOutcome.failedNow st.state (st.reason.getD "Unknown") waited
      else pollLoop b qid fuel (waited + 1)

/-- `run_query(query, max_wait_seconds=30)` of app.py lines 20-85.  The
whole body is inside `try`, so every oracle exception becomes the
`{"error": str(e)}` dictionary.  When the loop body never runs
(`max_wait_seconds = 0`) the Python name `status` is unbound and the
`status != "SUCCEEDED"` check itself raises `NameError`, likewise caught. -/
def run_query (b : Backend) (query : String) (max_wait_seconds : Nat) : RunResult :=
  match b.start query with
  | Except.error e => RunResult.error e
  | Except.ok query_id =>
    match pollLoop b query_id max_wait_seconds 0 with
    | PollOutcome.exn e _ => RunResult.error e
    | PollOutcome.failedNow state reason _ =>
      RunResult.error ("Query " ++ state ++ ": " ++ reason)
    | PollOutcome.timedOut _ =>
      if max_wait_seconds = 0 then
        RunResult.error "name \x27status\x27 is not defined"
      else RunResult.error "Query timeout"
    | PollOutcome.broke _ =>
      match b.getResults query_id with
      | Except.error e => RunResult.error e
      | Except.ok rows => parseResults rows

/-- Number of `time.sleep(1)` calls `run_query` performs, read off the
`waited` counter recorded in the loop outcome: the seconds of the wait
budget actually consumed. -/
def run_query_sleeps (b : Backend) (query : String) (max_wait_seconds : Nat) : Nat :=
  match b.start query with
  | Except.error _ => 0
  | Except.ok query_id =>
    match pollLoop b query_id max_wait_seconds 0 with
    | PollOutcome.broke w => w
    | PollOutcome.failedNow _ _ w => w
    | PollOutcome.timedOut w => w
    | PollOutcome.exn _ w => w

/-- An HTTP response of the app: the status code and the JSON body,
which is either an array of row objects (`jsonify(data)` /
`jsonify([])`) or a single object (the utility endpoints). -/
inductive Json where
  | arr : List (List (String × PyVal)) → Json
  | obj : List (String × PyVal) → Json
deriving DecidableEq

structure HttpResponse where
  status : Nat
  body : Json
deriving DecidableEq

/-- The SQL of `/latest` (app.py lines 92-103). -/
def latestQuery : String :=
  "\n    WITH ranked AS (\n        SELECT \n            device, co, smoke, temp, humidity, lpg,\n            CAST(to_unixtime(ts) AS BIGINT) as ts,\n            ROW_NUMBER() OVER (PARTITION BY device ORDER BY ts DESC) as rn\n        FROM processed\n    )\n    SELECT device, device AS device_id, co, smoke, temp, humidity, lpg, ts\n    FROM ranked\n    WHERE rn <= 20;\n    "

/-- The SQL of `/avg_metrics` (app.py lines 179-186). -/
def avgMetricsQuery : String :=
  "\n    SELECT device,\n           AVG(co) AS avg_co,\n           AVG(smoke) AS avg_smoke,\n           AVG(temp) AS avg_temp\n    FROM processed\n    GROUP BY device\n    "

/-- The SQL of `/max_metrics` (app.py lines 199-206). -/
def maxMetricsQuery : String :=
  "\n    SELECT device,\n           MAX(co) AS max_co,\n           MAX(smoke) AS max_smoke,\n           MAX(temp) AS max_temp\n    FROM processed\n    GROUP BY device\n    "

/-- The SQL of `/alert_counts` (app.py lines 219-224). -/
def alertCountsQuery : String :=
  "\n    SELECT device,\n           SUM(CASE WHEN co >= 0.120 THEN 1 ELSE 0 END) AS co_alerts\n    FROM processed\n    GROUP BY device\n    "

/-- The SQL of `/humidity_co` (app.py lines 237-242). -/
def humidityCoQuery : String :=
  "\n    SELECT humidity, AVG(co) AS avg_co\n    FROM processed\n    GROUP BY humidity\n    ORDER BY humidity\n    "

/-- The SQL of `/temp_dist` (app.py lines 255-260). -/
def tempDistQuery : String :=
  "\n    SELECT temp, COUNT(*) AS count\n    FROM processed\n    GROUP BY temp\n    ORDER BY temp\n    "

/-- The hardcoded simulated 130.5 ppm alert row injected by `/latest`
(app.py lines 110-120 and 127-137); `now` is `int(time.time())`. -/
def simulated_alert_row (now : ℤ) : List (String × PyVal) :=
  [("device", PyVal.str "b8:27:eb:bf:9d:51"),
   ("device_id", PyVal.str "b8:27:eb:bf:9d:51"),
   ("co", PyVal.num (1305 / 10000)),
   ("smoke", PyVal.num (25 / 1000)),
   ("temp", PyVal.num 28),
   ("humidity", PyVal.num 40),
   ("lpg", PyVal.num (5 / 1000)),
   ("ts", PyVal.int now),
   ("alert_key", PyVal.str "simulated_tent1_danger_130")]

/-- GET `/latest` (app.py lines 89-141).  `data` is truthy and not the
error dictionary exactly when `run_query` returned a nonempty row list;
then the simulated row is appended, otherwise the response is just the
simulated row.  Both branches respond 200. -/
def latest (b : Backend) (now : ℤ) : HttpResponse :=
  match run_query b latestQuery 30 with
  | RunResult.rows data =>
    if data.isEmpty then ⟨200, Json.arr [simulated_alert_row now]⟩
    else ⟨200, Json.arr (data ++ [simulated_alert_row now])⟩
  | RunResult.error _ => ⟨200, Json.arr [simulated_alert_row now]⟩

/-- GET `/avg_metrics` (app.py lines 176-193): empty or failed result
becomes `jsonify([])`, otherwise the rows are returned; always 200. -/
def avg_metrics (b : Backend) : HttpResponse :=
  match run_query b avgMetricsQuery 30 with
  | RunResult.rows data =>
    if data.isEmpty then ⟨200, Json.arr []⟩ else ⟨200, Json.arr data⟩
  | RunResult.error _ => ⟨200, Json.arr []⟩

/-- GET `/max_metrics` (app.py lines 196-213). -/
def max_metrics (b : Backend) : HttpResponse :=
  match run_query b maxMetricsQuery 30 with
  | RunResult.rows data =>
    if data.isEmpty then ⟨200, Json.arr []⟩ else ⟨200, Json.arr data⟩
  | RunResult.error _ => ⟨200, Json.arr []⟩

/-- GET `/alert_counts` (app.py lines 216-231). -/
def alert_counts (b : Backend) : HttpResponse :=
  match run_query b alertCountsQuery 30 with
  | RunResult.rows data =>
    if data.isEmpty then ⟨200, Json.arr []⟩ else ⟨200, Json.arr data⟩
  | RunResult.error _ => ⟨200, Json.arr []⟩

/-- GET `/humidity_co` (app.py lines 234-249). -/
def humidity_co (b : Backend) : HttpResponse :=
  match run_query b humidityCoQuery 30 with
  | RunResult.rows data =>
    if data.isEmpty then ⟨200, Json.arr []⟩ else ⟨200, Json.arr data⟩
  | RunResult.error _ => ⟨200, Json.arr []⟩

/-- GET `/temp_dist` (app.py lines 252-267). -/
def temp_dist (b : Backend) : HttpResponse :=
  match run_query b tempDistQuery 30 with
  | RunResult.rows data =>
    if data.isEmpty then ⟨200, Json.arr []⟩ else ⟨200, Json.arr data⟩
  | RunResult.error _ => ⟨200, Json.arr []⟩

/-- Oracle for the in-process nondeterminism of `/co_trend`: the
timestamp `int((now - timedelta(minutes=50-i)).timestamp())` for each
loop index `i`, the value of the n-th `random.uniform(lo, hi)` call, and
Python `round(x, 6)` (IEEE rounding is outside the rational model). -/
structure TrendEnv where
  tsAt : Nat → ℤ
  rand : Nat → ℚ → ℚ → ℚ
  round6 : ℚ → ℚ

/-- The three device identifiers of `/co_trend` (app.py line 148). -/
def trendDevices : List String :=
  ["b8:27:eb:bf:9d:51", "00:0f:00:70:91:0a", "1c:bf:ce:15:ec:4d"]

/-- One appended point of `/co_trend` (app.py lines 154-171) for loop
index `i` and device index `j`; the `rand` call counter is `i * 3 + j`. -/
def coTrendRow (env : TrendEnv) (i j : Nat) (device : String) :
    List (String × PyVal) :=
  let base :=
    if device = "b8:27:eb:bf:9d:51" then
      if i > 40 then env.rand (i * 3 + j) (120 / 1000) (1305 / 10000)
      else if i > 30 then env.rand (i * 3 + j) (80 / 1000) (120 / 1000)
      else env.rand (i * 3 + j) (3 / 1000) (8 / 1000)
    else env.rand (i * 3 + j) (3 / 1000) (8 / 1000)
  [("ts", PyVal.int (env.tsAt i)),
   ("device", PyVal.str device),
   ("co", PyVal.num (env.round6 base))]

/-- GET `/co_trend` (app.py lines 144-173): 50 × 3 synthetic points,
always a 200 array response; no backend call. -/
def co_trend (env : TrendEnv) : HttpResponse :=
  ⟨200, Json.arr ((List.range 50).flatMap (fun i =>
    trendDevices.enum.map (fun p => coTrendRow env i p.1 p.2)))⟩

/-- POST `/acknowledge_alert` (app.py lines 272-281) acting on the
process-wide `acknowledged_alerts` set; `alert_key` is
`request.json.get("alert_key")` (`Option.none` when the body lacks the
field).  Python truthiness: `None` and `""` are falsy.  Returns the
response and the new set. -/
def acknowledge_alert (acknowledged_alerts : Finset String)
    (alert_key : Option String) : HttpResponse × Finset String :=
  match alert_key with
  | Option.some k =>
    if k ≠ "" then
      (⟨200, Json.obj [("success", PyVal.bool true), ("acknowledged", PyVal.str k)]⟩,
       insert k acknowledged_alerts)
    else (⟨400, Json.obj [("success", PyVal.bool false)]⟩, acknowledged_alerts)
  | Option.none => (⟨400, Json.obj [("success", PyVal.bool false)]⟩, acknowledged_alerts)

/-- POST `/reset_alerts` (app.py lines 284-290): clears the set. -/
def reset_alerts (acknowledged_alerts : Finset String) :
    HttpResponse × Finset String :=
  (⟨200, Json.obj [("success", PyVal.bool true),
                   ("message", PyVal.str "All alerts reset")]⟩, ∅)

/-- Python dict lookup on a built row (rows built by `buildItem` and the
literal rows have unique keys, so the first match is the dict entry). -/
def getField (row : List (String × PyVal)) (k : String) : Option PyVal :=
  match row with
  | [] => Option.none
  | p :: rest => if p.1 = k then Option.some p.2 else getField rest k

/-- A field value allowed by the spec Result Row data model: float or
string. -/
def isFloatOrStr : PyVal → Bool
  | PyVal.num _ => true
  | PyVal.str _ => true
  | _ => false

/-- A field value `run_query` can actually produce: float, string, or
Python `None`. -/
def isFloatOrStrOrNull : PyVal → Bool
  | PyVal.num _ => true
  | PyVal.str _ => true
  | PyVal.pynull => true
  | _ => false

/-- A backend whose submission call raises an exception with message
"boom": exercises the outer `except` branch. -/
def failingBackend : Backend where
  start := fun _ => Except.error "boom"
  getStatus := fun _ _ => Except.error "boom"
  getResults := fun _ => Except.error "boom"

/-- A backend that immediately succeeds and returns a result set whose
single data row has a cell with no `VarCharValue` under the `device`
column. -/
def nullCellBackend : Backend where
  start := fun _ => Except.ok "qid-1"
  getStatus := fun _ _ => Except.ok ⟨"SUCCEEDED", Option.none⟩
  getResults := fun _ => Except.ok [[Option.some "device"], [Option.none]]

/-- A backend that immediately succeeds with a header-only result set. -/
def headerOnlyBackend : Backend where
  start := fun _ => Except.ok "qid-2"
  getStatus := fun _ _ => Except.ok ⟨"SUCCEEDED", Option.none⟩
  getResults := fun _ =>
    Except.ok [[Option.some "device", Option.some "avg_co"]]

/-- A backend whose first poll reports FAILED with a reason. -/
def failedStatusBackend : Backend where
  start := fun _ => Except.ok "qid-3"
  getStatus := fun _ _ => Except.ok ⟨"FAILED", Option.some "SYNTAX_ERROR"⟩
  getResults := fun _ => Except.ok []

/-- A backend that never leaves the RUNNING state. -/
def pendingBackend : Backend where
  start := fun _ => Except.ok "qid-4"
  getStatus := fun _ _ => Except.ok ⟨"RUNNING", Option.none⟩
  getResults := fun _ => Except.ok []

/-- A trivial concrete `TrendEnv` for instantiating theorems. -/
def constTrendEnv : TrendEnv where
  tsAt := fun _ => 0
  rand := fun _ lo _ => lo
  round6 := fun q => q

/-! ## Lemmas about the polling loop -/

/-- While every observed status is still pending, the loop keeps going:
polling with budget `fuel` from counter `waited` equals polling with
budget `fuel - k` from counter `waited + k` whenever the first `k`
observations are pending. -/
theorem pollLoop_shift (b : Backend) (qid : String) :
    ∀ (k fuel waited : Nat), k ≤ fuel →
    (∀ i, i < k → ∃ st, b.getStatus qid (waited + i) = Except.ok st ∧
      isPending st.state = true) →
    pollLoop b qid fuel waited = pollLoop b qid (fuel - k) (waited + k) := by
  intro k
  induction k with
  | zero => intro fuel waited _ _; simp
  | succ k ih =>
    intro fuel waited hk hp
    obtain ⟨f, rfl⟩ : ∃ f, fuel = f + 1 := ⟨fuel - 1, by omega⟩
    obtain ⟨st, hst, hpend⟩ := hp 0 (by omega)
    simp only [Nat.add_zero] at hst
    simp only [isPending, decide_eq_true_eq] at hpend
    obtain ⟨h1, h2, h3⟩ := hpend
    have hstep : pollLoop b qid (f + 1) waited = pollLoop b qid f (waited + 1) := by
      simp only [pollLoop, hst]
      rw [if_neg h1, if_neg (by simp [h2, h3])]
    rw [hstep, ih f (waited + 1) (by omega) ?_]
    · congr 1 <;> omega
    · intro i hi
      obtain ⟨st2, hst2, hpend2⟩ := hp (i + 1) (by omega)
      exact ⟨st2, by rw [show waited + 1 + i = waited + (i + 1) by omega]; exact hst2, hpend2⟩

/-- C7: if every status poll within the wait budget observes a pending
(queued/running) state, `run_query` returns the timeout failure exactly
when the budget is exhausted: the error is "Query timeout" and the
number of one-second sleeps performed equals the full
`max_wait_seconds`, never fewer. -/
theorem C7_timeout_exhausts_budget (b : Backend) (q qid : String) (w : Nat)
    (hs : b.start q = Except.ok qid) (hw : 0 < w)
    (hp : ∀ i, i < w → ∃ st, b.getStatus qid i = Except.ok st ∧
      isPending st.state = true) :
    run_query b q w = RunResult.error "Query timeout" ∧
    run_query_sleeps b q w = w := by
  have h := pollLoop_shift b qid w w 0 (le_refl w) (by simpa using hp)
  simp only [Nat.sub_self, Nat.zero_add] at h
  have h0 : pollLoop b qid 0 w = PollOutcome.timedOut w := rfl
  rw [h0] at h
  constructor
  · simp only [run_query, hs, h]
    rw [if_neg (by omega)]
  · simp only [run_query_sleeps, hs, h]

/-- C7 witness: a backend stuck in RUNNING makes `run_query` with the
default 30-second budget time out after exactly 30 sleeps. -/
theorem C7_timeout_exhausts_budget_witness :
    run_query pendingBackend "SELECT 1" 30 = RunResult.error "Query timeout" ∧
    run_query_sleeps pendingBackend "SELECT 1" 30 = 30 :=
  C7_timeout_exhausts_budget pendingBackend "SELECT 1" "qid-4" 30 rfl (by decide)
    (fun i _ => ⟨⟨"RUNNING", Option.none⟩, rfl, by decide⟩)

/-- C6: a FAILED or CANCELLED status observed at poll `k` (after `k`
pending polls) makes `run_query` return immediately with the error built
from the state and the backend StateChangeReason (defaulting to
"Unknown"), having slept only `k` of the `w`-second budget. -/
theorem C6_failed_immediate (b : Backend) (q qid : String) (w k : Nat)
    (st : StatusInfo)
    (hs : b.start q = Except.ok qid) (hk : k < w)
    (hp : ∀ i, i < k → ∃ st, b.getStatus qid i = Except.ok st ∧
      isPending st.state = true)
    (hpoll : b.getStatus qid k = Except.ok st)
    (hfc : st.state = "FAILED" ∨ st.state = "CANCELLED") :
    run_query b q w =
      RunResult.error ("Query " ++ st.state ++ ": " ++ st.reason.getD "Unknown") ∧
    run_query_sleeps b q w = k ∧ k < w := by
  have h := pollLoop_shift b qid k w 0 (le_of_lt hk) (by simpa using hp)
  simp only [Nat.zero_add] at h
  obtain ⟨m, hm⟩ : ∃ m, w - k = m + 1 := ⟨w - k - 1, by omega⟩
  rw [hm] at h
  have hstep : pollLoop b qid (m + 1) k =
      PollOutcome.failedNow st.state (st.reason.getD "Unknown") k := by
    rcases hfc with h1 | h1 <;> simp [pollLoop, hpoll, h1]
  rw [hstep] at h
  exact ⟨by simp only [run_query, hs, h], by simp only [run_query_sleeps, hs, h], hk⟩

/-- C6 witness: a first poll reporting FAILED with reason SYNTAX_ERROR
yields the corresponding error without any sleep. -/
theorem C6_failed_immediate_witness :
    run_query failedStatusBackend "SELECT 1" 30 =
      RunResult.error "Query FAILED: SYNTAX_ERROR" ∧
    run_query_sleeps failedStatusBackend "SELECT 1" 30 = 0 ∧ 0 < 30 :=
  C6_failed_immediate failedStatusBackend "SELECT 1" "qid-3" 30 0
    ⟨"FAILED", Option.some "SYNTAX_ERROR"⟩ rfl (by decide)
    (fun i hi => absurd hi (by omega)) rfl (Or.inl rfl)

/-- C5: a SUCCEEDED status followed by a result set holding only the
header row makes `run_query` return the empty row list (a success, not
an error value). -/
theorem C5_header_only_success (b : Backend) (q qid : String) (w k : Nat)
    (st : StatusInfo) (hr : List (Option String))
    (hs : b.start q = Except.ok qid) (hk : k < w)
    (hp : ∀ i, i < k → ∃ st, b.getStatus qid i = Except.ok st ∧
      isPending st.state = true)
    (hpoll : b.getStatus qid k = Except.ok st)
    (hsucc : st.state = "SUCCEEDED")
    (hres : b.getResults qid = Except.ok [hr]) :
    run_query b q w = RunResult.rows [] := by
  have h := pollLoop_shift b qid k w 0 (le_of_lt hk) (by simpa using hp)
  simp only [Nat.zero_add] at h
  obtain ⟨m, hm⟩ : ∃ m, w - k = m + 1 := ⟨w - k - 1, by omega⟩
  rw [hm] at h
  have hstep : pollLoop b qid (m + 1) k = PollOutcome.broke k := by
    simp [pollLoop, hpoll, hsucc]
  rw [hstep] at h
  simp only [run_query, hs, h, hres]
  rfl

/-- C5 witness: the header-only backend yields the empty row list. -/
theorem C5_header_only_success_witness :
    run_query headerOnlyBackend "SELECT 1" 30 = RunResult.rows [] :=
  C5_header_only_success headerOnlyBackend "SELECT 1" "qid-2" 30 0
    ⟨"SUCCEEDED", Option.none⟩ [Option.some "device", Option.some "avg_co"]
    rfl (by decide) (fun i hi => absurd hi (by omega)) rfl rfl rfl

/-- C4: `run_query` never propagates an exception: an exception raised
by the submission call, by a status poll (after any number of pending
polls within the budget), or by the result fetch after success, is
caught and returned as the failure value carrying that exception's
message. -/
theorem C4_exceptions_caught (b : Backend) (q : String) (w : Nat) :
    (∀ e, b.start q = Except.error e → run_query b q w = RunResult.error e) ∧
    (∀ qid k e, b.start q = Except.ok qid → k < w →
      (∀ i, i < k → ∃ st, b.getStatus qid i = Except.ok st ∧
        isPending st.state = true) →
      b.getStatus qid k = Except.error e →
      run_query b q w = RunResult.error e) ∧
    (∀ qid k st e, b.start q = Except.ok qid → k < w →
      (∀ i, i < k → ∃ st, b.getStatus qid i = Except.ok st ∧
        isPending st.state = true) →
      b.getStatus qid k = Except.ok st → st.state = "SUCCEEDED" →
      b.getResults qid = Except.error e →
      run_query b q w = RunResult.error e) := by
  refine ⟨fun e he => by simp only [run_query, he], ?_, ?_⟩
  · intro qid k e hs hk hp hpoll
    have h := pollLoop_shift b qid k w 0 (le_of_lt hk) (by simpa using hp)
    simp only [Nat.zero_add] at h
    obtain ⟨m, hm⟩ : ∃ m, w - k = m + 1 := ⟨w - k - 1, by omega⟩
    rw [hm] at h
    have hstep : pollLoop b qid (m + 1) k = PollOutcome.exn e k := by
      simp [pollLoop, hpoll]
    rw [hstep] at h
    simp only [run_query, hs, h]
  · intro qid k st e hs hk hp hpoll hsucc hres
    have h := pollLoop_shift b qid k w 0 (le_of_lt hk) (by simpa using hp)
    simp only [Nat.zero_add] at h
    obtain ⟨m, hm⟩ : ∃ m, w - k = m + 1 := ⟨w - k - 1, by omega⟩
    rw [hm] at h
    have hstep : pollLoop b qid (m + 1) k = PollOutcome.broke k := by
      simp [pollLoop, hpoll, hsucc]
    rw [hstep] at h
    simp only [run_query, hs, h, hres]

/-- C4 witness: a submission exception with message "boom" becomes the
error value "boom". -/
theorem C4_exceptions_caught_witness :
    run_query failingBackend "SELECT 1" 30 = RunResult.error "boom" :=
  (C4_exceptions_caught failingBackend "SELECT 1" 30).1 "boom" rfl

/-- C2: the cell coercion: a value that parses as a number becomes that
float; a non-numeric value under an identifier-like column ("device",
"device_id", "alert_key") is kept as the original string; a non-numeric
value under any other column becomes 0.0. -/
theorem C2_cell_coercion (header s : String) :
    (∀ q, pyFloat s = Option.some q →
      coerceCell header (Option.some s) = PyVal.num q) ∧
    (pyFloat s = Option.none → header ∈ identCols →
      coerceCell header (Option.some s) = PyVal.str s) ∧
    (pyFloat s = Option.none → header ∉ identCols →
      coerceCell header (Option.some s) = PyVal.num 0) := by
  refine ⟨fun q hq => ?_, fun hn hmem => ?_, fun hn hmem => ?_⟩
  · simp [coerceCell, hq]
  · simp [coerceCell, hn, hmem]
  · simp [coerceCell, hn, hmem]

/-- Concrete evaluation: "12.5" parses to 12.5. -/
theorem pyFloat_eval_12_5 : pyFloat "12.5" = Option.some (25 / 2) := by
  rw [show pyFloat "12.5" =
    Option.some (((12 : ℕ) : ℚ) + ((5 : ℕ) : ℚ) / (10 : ℚ) ^ (1 : ℕ)) from rfl]
  norm_num

/-- Concrete evaluation: "42" parses to 42. -/
theorem pyFloat_eval_42 : pyFloat "42" = Option.some 42 := by
  rw [show pyFloat "42" = Option.some (((42 : ℕ) : ℚ)) from rfl]
  norm_num

/-- Concrete evaluation: the MAC address does not parse as a number. -/
theorem pyFloat_eval_mac : pyFloat "b8:27:eb:bf:9d:51" = Option.none := rfl

/-- Concrete evaluation: "n/a" does not parse as a number. -/
theorem pyFloat_eval_na : pyFloat "n/a" = Option.none := rfl

/-- C2 witness: "12.5" under "temp" becomes 12.5; the MAC address under
"device" stays a string; "n/a" under "smoke" becomes 0.0. -/
theorem C2_cell_coercion_witness :
    coerceCell "temp" (Option.some "12.5") = PyVal.num (25 / 2) ∧
    coerceCell "device" (Option.some "b8:27:eb:bf:9d:51") =
      PyVal.str "b8:27:eb:bf:9d:51" ∧
    coerceCell "smoke" (Option.some "n/a") = PyVal.num 0 :=
  ⟨(C2_cell_coercion "temp" "12.5").1 (25 / 2) pyFloat_eval_12_5,
   (C2_cell_coercion "device" "b8:27:eb:bf:9d:51").2.1 pyFloat_eval_mac
     (by simp [identCols]),
   (C2_cell_coercion "smoke" "n/a").2.2 pyFloat_eval_na (by simp [identCols])⟩

/-- C10: the numeric parse is attempted before the identifier-column
check, so any cell value that parses as a number becomes a float even
under "device", "device_id" or "alert_key". -/
theorem C10_parse_before_ident (header s : String) (q : ℚ)
    (h : pyFloat s = Option.some q) :
    coerceCell header (Option.some s) = PyVal.num q := by
  simp [coerceCell, h]

/-- C10 witness: a device identifier "42" becomes the float 42.0, not a
string. -/
theorem C10_parse_before_ident_witness :
    coerceCell "device" (Option.some "42") = PyVal.num 42 :=
  C10_parse_before_ident "device" "42" 42 pyFloat_eval_42

/-- C9: a POST /acknowledge_alert whose body has no alert_key value
returns status 400 (non-200) with the failure body and leaves the
acknowledged set exactly as it was. -/
theorem C9_ack_missing_key (acks : Finset String) :
    (acknowledge_alert acks Option.none).1 =
      ⟨400, Json.obj [("success", PyVal.bool false)]⟩ ∧
    (acknowledge_alert acks Option.none).1.status ≠ 200 ∧
    (acknowledge_alert acks Option.none).2 = acks :=
  ⟨rfl, by simp [acknowledge_alert], rfl⟩

/-- C8: whatever the backend does, the GET /latest response body is an
array containing a row whose device field is the hardcoded MAC and
whose co field is 0.1305. -/
theorem C8_latest_simulated_row (b : Backend) (now : ℤ) :
    ∃ items, (latest b now).body = Json.arr items ∧
      ∃ row, row ∈ items ∧
        getField row "device" = Option.some (PyVal.str "b8:27:eb:bf:9d:51") ∧
        getField row "co" = Option.some (PyVal.num (1305 / 10000)) := by
  have hdev : getField (simulated_alert_row now) "device" =
      Option.some (PyVal.str "b8:27:eb:bf:9d:51") := rfl
  have hco : getField (simulated_alert_row now) "co" =
      Option.some (PyVal.num (1305 / 10000)) := rfl
  unfold latest
  cases hrq : run_query b latestQuery 30 with
  | rows data =>
    by_cases hd : data.isEmpty
    · exact ⟨[simulated_alert_row now], by simp [hd],
        simulated_alert_row now, by simp, hdev, hco⟩
    · exact ⟨data ++ [simulated_alert_row now], by simp [hd],
        simulated_alert_row now, by simp, hdev, hco⟩
  | error e =>
    exact ⟨[simulated_alert_row now], by simp,
      simulated_alert_row now, by simp, hdev, hco⟩

/-! ## Shape of the values run_query produces -/

/-- Every value `coerceCell` can produce is a float, a string, or
Python `None`. -/
theorem coerceCell_shape (h : String) (c : Option String) :
    isFloatOrStrOrNull (coerceCell h c) = true := by
  rcases c with _ | s
  · show isFloatOrStrOrNull
      (if h ∈ identCols then PyVal.pynull else PyVal.num 0) = true
    split <;> rfl
  · show isFloatOrStrOrNull
      (match pyFloat s with
       | Option.some q => PyVal.num q
       | Option.none =>
         if h ∈ identCols then PyVal.str s else PyVal.num 0) = true
    rcases hps : pyFloat s with _ | q
    · show isFloatOrStrOrNull
        (if h ∈ identCols then PyVal.str s else PyVal.num 0) = true
      split <;> rfl
    · rfl

/-- Membership after a Python dict assignment: the pair was already
there, or its value is the inserted one. -/
theorem dictInsert_mem (d : List (String × PyVal)) (k : String) (v : PyVal)
    (p : String × PyVal) (hp : p ∈ dictInsert d k v) : p ∈ d ∨ p.2 = v := by
  unfold dictInsert at hp
  split at hp
  · obtain ⟨q, hq, hqe⟩ := List.mem_map.mp hp
    by_cases hqk : q.1 = k
    · right; rw [← hqe]; simp [hqk]
    · left; rw [← hqe]; simp [hqk]; exact hq
  · rcases List.mem_append.mp hp with h | h
    · exact Or.inl h
    · right; rw [List.mem_singleton.mp h]

/-- Every field of the dictionary `buildItem` returns is a float, a
string, or `None`, given the accumulator already satisfies this. -/
theorem buildItem_shape (headers : List String) (cells : List (Option String)) :
    ∀ (i : Nat) (item : List (String × PyVal)),
    (∀ p ∈ item, isFloatOrStrOrNull p.2 = true) →
    ∀ out, buildItem headers cells i item = Except.ok out →
    ∀ p ∈ out, isFloatOrStrOrNull p.2 = true := by
  induction cells with
  | nil =>
    intro i item hitem out hout
    unfold buildItem at hout
    cases hout
    exact hitem
  | cons c cs ih =>
    intro i item hitem out hout
    unfold buildItem at hout
    cases hh : headers.get? i with
    | none => rw [hh] at hout; cases hout
    | some header =>
      rw [hh] at hout
      refine ih (i + 1) _ ?_ out hout
      intro p hp
      rcases dictInsert_mem _ _ _ p hp with h | h
      · exact hitem p h
      · rw [h]; exact coerceCell_shape header c

/-- Every field of every row `buildItems` returns is a float, a string,
or `None`. -/
theorem buildItems_shape (headers : List String) (rs : List (List (Option String))) :
    ∀ out, buildItems headers rs = Except.ok out →
    ∀ row ∈ out, ∀ p ∈ row, isFloatOrStrOrNull p.2 = true := by
  induction rs with
  | nil =>
    intro out hout row hrow
    unfold buildItems at hout
    cases hout
    cases hrow
  | cons r rs ih =>
    intro out hout row hrow
    unfold buildItems at hout
    cases hi : buildItem headers r 0 [] with
    | error e => rw [hi] at hout; cases hout
    | ok item =>
      rw [hi] at hout
      cases hrest : buildItems headers rs with
      | error e => rw [hrest] at hout; cases hout
      | ok items =>
        rw [hrest] at hout
        cases hout
        rcases List.mem_cons.mp hrow with h | h
        · rw [h]
          exact buildItem_shape headers r 0 [] (by intro p hp; cases hp) item hi
        · exact ih items hrest row h

/-- Every field of every row `parseResults` returns is a float, a
string, or `None`. -/
theorem parseResults_cons (hr : List (Option String))
    (rest : List (List (Option String)))
    (hlen : ¬ (hr :: rest).length ≤ 1) :
    parseResults (hr :: rest) =
      (match extractHeaders hr with
       | Except.error e => RunResult.error e
       | Except.ok headers =>
         match buildItems headers rest with
         | Except.error e => RunResult.error e
         | Except.ok items => RunResult.rows items) := by
  unfold parseResults
  rw [if_neg hlen]

/-- Every field of every row `parseResults` returns is a float, a
string, or `None`. -/
theorem parseResults_shape (rows : List (List (Option String)))
    (out : List (List (String × PyVal)))
    (h : parseResults rows = RunResult.rows out) :
    ∀ row ∈ out, ∀ p ∈ row, isFloatOrStrOrNull p.2 = true := by
  by_cases hlen : rows.length ≤ 1
  · unfold parseResults at h
    rw [if_pos hlen] at h
    cases h
    intro row hrow
    cases hrow
  · cases rows with
    | nil => exact absurd (by simp) hlen
    | cons hr rest =>
      rw [parseResults_cons hr rest hlen] at h
      cases hh : extractHeaders hr with
      | error e =>
        rw [hh] at h
        replace h : RunResult.error e = RunResult.rows out := h
        cases h
      | ok headers =>
        rw [hh] at h
        replace h : (match buildItems headers rest with
          | Except.error e => RunResult.error e
          | Except.ok items => RunResult.rows items) = RunResult.rows out := h
        cases hb : buildItems headers rest with
        | error e =>
          rw [hb] at h
          replace h : RunResult.error e = RunResult.rows out := h
          cases h
        | ok items =>
          rw [hb] at h
          replace h : RunResult.rows items = RunResult.rows out := h
          cases h
          exact buildItems_shape headers rest _ hb

/-- Concrete evaluation shared by the C3 counterexample and witness: on
a result set whose data row has a cell without `VarCharValue` under the
`device` column, `run_query` stores Python `None` in the row. -/
theorem run_query_nullCell_eval :
    run_query nullCellBackend "SELECT device FROM processed" 30 =
      RunResult.rows [[("device", PyVal.pynull)]] := rfl

/-- C3 counterexample: the claim that every field of every returned row
is a float or a string fails — a missing cell under an identifier
column yields a row whose `device` field is Python `None` (JSON null),
which is neither. -/
theorem C3_counterexample_null_field :
    run_query nullCellBackend "SELECT device FROM processed" 30 =
      RunResult.rows [[("device", PyVal.pynull)]] ∧
    isFloatOrStr PyVal.pynull = false :=
  ⟨run_query_nullCell_eval, rfl⟩

/-- C3 amended: every field of every row `run_query` returns is a
float, a string, or Python `None` (the latter only arising from a
missing cell under an identifier-like column). -/
theorem C3_amended_fields_shape (b : Backend) (q : String) (w : Nat)
    (l : List (List (String × PyVal)))
    (h : run_query b q w = RunResult.rows l) :
    ∀ row ∈ l, ∀ p ∈ row, isFloatOrStrOrNull p.2 = true := by
  unfold run_query at h
  cases hs : b.start q with
  | error e =>
    rw [hs] at h
    replace h : RunResult.error e = RunResult.rows l := h
    cases h
  | ok qid =>
    rw [hs] at h
    replace h : (match pollLoop b qid w 0 with
      | PollOutcome.exn e _ => RunResult.error e
      | PollOutcome.failedNow state reason _ =>
        RunResult.error ("Query " ++ state ++ ": " ++ reason)
      | PollOutcome.timedOut _ =>
        if w = 0 then RunResult.error "name \x27status\x27 is not defined"
        else RunResult.error "Query timeout"
      | PollOutcome.broke _ =>
        match b.getResults qid with
        | Except.error e => RunResult.error e
        | Except.ok rows => parseResults rows) = RunResult.rows l := h
    cases hp : pollLoop b qid w 0 with
    | exn e wd =>
      rw [hp] at h
      replace h : RunResult.error e = RunResult.rows l := h
      cases h
    | failedNow st rsn wd =>
      rw [hp] at h
      replace h : RunResult.error ("Query " ++ st ++ ": " ++ rsn) =
        RunResult.rows l := h
      cases h
    | timedOut wd =>
      rw [hp] at h
      replace h : (if w = 0 then
          RunResult.error "name \x27status\x27 is not defined"
        else RunResult.error "Query timeout") = RunResult.rows l := h
      split at h <;> cases h
    | broke wd =>
      rw [hp] at h
      replace h : (match b.getResults qid with
        | Except.error e => RunResult.error e
        | Except.ok rows => parseResults rows) = RunResult.rows l := h
      cases hr : b.getResults qid with
      | error e =>
        rw [hr] at h
        replace h : RunResult.error e = RunResult.rows l := h
        cases h
      | ok rows0 =>
        rw [hr] at h
        replace h : parseResults rows0 = RunResult.rows l := h
        exact parseResults_shape rows0 l h

/-- C3 amended witness: applied to the null-cell backend, the `device`
field of the returned row is one of the three allowed kinds. -/
theorem C3_amended_fields_shape_witness :
    isFloatOrStrOrNull PyVal.pynull = true :=
  C3_amended_fields_shape nullCellBackend "SELECT device FROM processed" 30
    [[("device", PyVal.pynull)]] run_query_nullCell_eval
    [("device", PyVal.pynull)] (by simp) ("device", PyVal.pynull) (by simp)

/-- C1 counterexample: the claim that every proxy-calling handler turns
a proxy failure into a 200 response with an EMPTY array fails for
GET /latest — on a backend whose submission raises "boom" the proxy
reports failure, yet /latest responds 200 with a one-element array (the
simulated alert row), not the empty array. -/
theorem C1_counterexample_latest_not_empty :
    run_query failingBackend latestQuery 30 = RunResult.error "boom" ∧
    (latest failingBackend 0).status = 200 ∧
    (latest failingBackend 0).body = Json.arr [simulated_alert_row 0] ∧
    (latest failingBackend 0).body ≠ Json.arr [] :=
  ⟨rfl, rfl, rfl, by decide⟩

/-- C1 amended: every handler except /acknowledge_alert always responds
200; on a proxy failure the five aggregate endpoints respond 200 with
the empty array, while /latest responds 200 with exactly the simulated
alert row; /acknowledge_alert is non-200 exactly when the provided
alert_key is absent or empty (and then returns 400). -/
theorem C1_amended_failure_handling (b : Backend) (env : TrendEnv) (now : ℤ)
    (acks : Finset String) (e : String) :
    (latest b now).status = 200 ∧
    (avg_metrics b).status = 200 ∧
    (max_metrics b).status = 200 ∧
    (alert_counts b).status = 200 ∧
    (humidity_co b).status = 200 ∧
    (temp_dist b).status = 200 ∧
    (co_trend env).status = 200 ∧
    ((reset_alerts acks).1.status = 200) ∧
    (∀ k, (acknowledge_alert acks (Option.some k)).1.status ≠ 200 → k = "") ∧
    ((acknowledge_alert acks Option.none).1.status = 400) ∧
    (run_query b avgMetricsQuery 30 = RunResult.error e →
      avg_metrics b = ⟨200, Json.arr []⟩) ∧
    (run_query b maxMetricsQuery 30 = RunResult.error e →
      max_metrics b = ⟨200, Json.arr []⟩) ∧
    (run_query b alertCountsQuery 30 = RunResult.error e →
      alert_counts b = ⟨200, Json.arr []⟩) ∧
    (run_query b humidityCoQuery 30 = RunResult.error e →
      humidity_co b = ⟨200, Json.arr []⟩) ∧
    (run_query b tempDistQuery 30 = RunResult.error e →
      temp_dist b = ⟨200, Json.arr []⟩) ∧
    (run_query b latestQuery 30 = RunResult.error e →
      latest b now = ⟨200, Json.arr [simulated_alert_row now]⟩) := by
  refine ⟨?_, ?_, ?_, ?_, ?_, ?_, rfl, rfl, ?_, rfl, ?_, ?_, ?_, ?_, ?_, ?_⟩
  · unfold latest
    split
    · split <;> rfl
    · rfl
  · unfold avg_metrics
    split
    · split <;> rfl
    · rfl
  · unfold max_metrics
    split
    · split <;> rfl
    · rfl
  · unfold alert_counts
    split
    · split <;> rfl
    · rfl
  · unfold humidity_co
    split
    · split <;> rfl
    · rfl
  · unfold temp_dist
    split
    · split <;> rfl
    · rfl
  · intro k hk
    by_contra hne
    exact hk (by simp [acknowledge_alert, hne])
  · intro h
    unfold avg_metrics
    rw [h]
  · intro h
    unfold max_metrics
    rw [h]
  · intro h
    unfold alert_counts
    rw [h]
  · intro h
    unfold humidity_co
    rw [h]
  · intro h
    unfold temp_dist
    rw [h]
  · intro h
    unfold latest
    rw [h]

/-- C1 amended witness: instantiated on the backend whose submission
raises "boom", the aggregate endpoint responds with the empty array and
/latest with exactly the simulated row. -/
theorem C1_amended_failure_handling_witness :
    avg_metrics failingBackend = ⟨200, Json.arr []⟩ ∧
    latest failingBackend 0 = ⟨200, Json.arr [simulated_alert_row 0]⟩ :=
  ⟨(C1_amended_failure_handling failingBackend constTrendEnv 0 ∅
      "boom").2.2.2.2.2.2.2.2.2.2.1 rfl,
   (C1_amended_failure_handling failingBackend constTrendEnv 0 ∅
      "boom").2.2.2.2.2.2.2.2.2.2.2.2.2.2.2 rfl⟩
